import Mathlib

set_option maxRecDepth 400000
set_option maxHeartbeats 1000000

/-
Verification model of the improver directional recursive smoothing filter
(`improver.nbhood.recursive_filter.RecursiveFilter`) and of the spot-data
table exporter (`improver/database.py`).

The filter implementation file itself is not part of the available sources;
its behaviour is modelled from the specification (spec.md sections 4 and 6)
and calibrated against the concrete expected values pinned by the unit tests
in `improver/tests/nbhood/nbhood/test_RecursiveFilter.py`, which are part of
the sources.  All floating-point arithmetic is modelled as exact rational
arithmetic.

`Frac` is an executable rational-number type (numerator / denominator pairs
of integers, normalised after every operation) used instead of `ℚ` so that
concrete runs of the model reduce inside the kernel.
-/

namespace Improver

/-- Executable rational numbers: an integer numerator and denominator.
All arithmetic operations normalise the result (positive denominator,
coprime components), so values built from the operations below compare
correctly with decidable structural equality. -/
structure Frac where
  num : ℤ
  den : ℤ
deriving DecidableEq, Repr

namespace Frac

/-- Normalise a fraction: denominator zero collapses to 0, otherwise the sign
is moved to the numerator and both components are divided by their gcd. -/
def norm (f : Frac) : Frac :=
  if f.den = 0 then ⟨0, 1⟩
  else
    let s : ℤ := if f.den < 0 then -1 else 1
    let g : ℤ := (Int.gcd f.num f.den : ℤ)
    ⟨s * f.num / g, s * f.den / g⟩

/-- Embed an integer. -/
def ofInt (n : ℤ) : Frac := ⟨n, 1⟩

/-- Addition with normalisation. -/
def add (a b : Frac) : Frac := norm ⟨a.num * b.den + b.num * a.den, a.den * b.den⟩

/-- Subtraction with normalisation. -/
def sub (a b : Frac) : Frac := norm ⟨a.num * b.den - b.num * a.den, a.den * b.den⟩

/-- Multiplication with normalisation. -/
def mul (a b : Frac) : Frac := norm ⟨a.num * b.num, a.den * b.den⟩

/-- Division with normalisation (division by zero yields 0, as in `ℚ`). -/
def div (a b : Frac) : Frac := norm ⟨a.num * b.den, a.den * b.num⟩

/-- Strict order via cross multiplication (intended for fractions with
positive denominators, which all normalised values have). -/
def blt (a b : Frac) : Bool := a.num * b.den < b.num * a.den

/-- Absolute value. -/
def abs (a : Frac) : Frac := ⟨|a.num|, |a.den|⟩

instance : Zero Frac := ⟨⟨0, 1⟩⟩
instance : One Frac := ⟨⟨1, 1⟩⟩
instance : Add Frac := ⟨add⟩
instance : Sub Frac := ⟨sub⟩
instance : Mul Frac := ⟨mul⟩
instance : Div Frac := ⟨div⟩
instance : OfNat Frac n := ⟨⟨n, 1⟩⟩

/-- Sum of a list of fractions. -/
def sumList (l : List Frac) : Frac := l.foldr add 0

end Frac

/-- A grid line: one row of floating-point values, modelled exactly. -/
abbrev Row := List Frac

/-- A 2-D data grid, row-major (axis 0 = rows/y of the array, axis 1 =
columns/x of the array), as `numpy` stores it. -/
abbrev Grid := List Row

/-- A grid is rectangular with `m` rows and `n` columns. -/
def Rect (m n : ℕ) (g : Grid) : Prop :=
  g.length = m ∧ ∀ r ∈ g, r.length = n

instance (m n : ℕ) (g : Grid) : Decidable (Rect m n g) := by
  unfold Rect
  exact instDecidableAnd

/-- Mean of the first `w` entries of a row: the fill value used by
`numpy.pad` in mode `mean` with `stat_length = w`. -/
def meanFirst (w : ℕ) (r : Row) : Frac :=
  Frac.div (Frac.sumList (r.take w)) (Frac.ofInt w)

/-- Pad a single row with `2*w` copies of the mean of the nearest `w`
entries on each end (the axis-1 step of `numpy.pad` mode `mean`). -/
def padRow (w : ℕ) (r : Row) : Row :=
  List.replicate (2*w) (meanFirst w r) ++ r ++ List.replicate (2*w) (meanFirst w r.reverse)

/-- Element-wise mean of the first `w` rows of a grid: the fill row used when
padding along axis 0. -/
def meanRows (w : ℕ) (g : Grid) : Row :=
  match g with
  | [] => []
  | r :: _ => (List.range r.length).map
      (fun j => Frac.div (Frac.sumList ((g.take w).map (fun row => row.getD j 0))) (Frac.ofInt w))

/-- Modelled from the spec: the external neighbourhood padding collaborator
`SquareNeighbourhood.pad_cube_with_halo` (its implementation file,
`improver/nbhood/square_kernel.py`, is not among the sources).  The spec
fixes the contract's shape, and the in-source unit tests pin the actual
sizes (a 5x5 grid with `edge_width = 1` pads to 9x9, i.e. `2*width` halo
cells on every side) and the fill policy (`numpy.pad` mode `mean` with
`stat_length = width`): axis 0 is padded first, then axis 1. -/
def pad_cube_with_halo (width_x width_y : ℕ) (g : Grid) : Grid :=
  let g1 := List.replicate (2*width_y) (meanRows width_y g) ++ g
              ++ List.replicate (2*width_y) (meanRows width_y g.reverse)
  g1.map (padRow width_x)

/-- Modelled from the spec: `SquareNeighbourhood.remove_halo_from_cube`,
the inverse cropping step, recovering the central `m x n` window. -/
def remove_halo_from_cube (width_x width_y m n : ℕ) (g : Grid) : Grid :=
  ((g.drop (2*width_y)).take m).map (fun r => (r.drop (2*width_x)).take n)

/-- One directional first-order recursion along a line, continuing from the
accumulated output `prev`: `out[i] = alpha[i] * out[i-1] + (1 - alpha[i]) * in[i]`. -/
def fwdLineAux : Frac → Row → Row → Row
  | _, _, [] => []
  | _, [], _ => []
  | prev, a :: as, v :: vs =>
      let cur := a * prev + (1 - a) * v
      cur :: fwdLineAux cur as vs

/-- Forward recursion along one full line, with `out[first] = in[first]`. -/
def fwdLine : Row → Row → Row
  | _ :: as, v :: vs => v :: fwdLineAux v as vs
  | _, vs => vs

/-- Modelled from the spec: `RecursiveFilter.recurse_forward_y` (the
implementation file `improver/nbhood/recursive_filter.py` is not among the
sources).  The forward pass along axis 1: each row is filtered
independently by `fwdLine` using the matching row of coefficients.  The
in-source unit test pins its value on the 5x5 scenario grid. -/
def recurse_forward_y (g alphas : Grid) : Grid :=
  List.zipWith (fun vrow arow => fwdLine arow vrow) g alphas

/-- Modelled from the spec: `RecursiveFilter.recurse_backwards_y`.  The same
recursion traversed in reverse index order along axis 1. -/
def recurse_backwards_y (g alphas : Grid) : Grid :=
  List.zipWith (fun vrow arow => (fwdLine arow.reverse vrow.reverse).reverse) g alphas

/-- One step of the axis-0 recursion: combine the previous output row with
the current input row, cell by cell, with the current coefficient row. -/
def stepRow (arow prev vrow : Row) : Row :=
  List.zipWith (fun av v => av.1 * av.2 + (1 - av.1) * v) (arow.zip prev) vrow

/-- Axis-0 recursion continuing from accumulated output row `prev`. -/
def fwdXAux : Row → Grid → Grid → Grid
  | _, _, [] => []
  | _, [], _ => []
  | prev, a :: as, v :: vs =>
      let cur := stepRow a prev v
      cur :: fwdXAux cur as vs

/-- Modelled from the spec: `RecursiveFilter.recurse_forward_x`.  The forward
pass along axis 0, with the first row unchanged. -/
def recurse_forward_x (g alphas : Grid) : Grid :=
  match alphas, g with
  | _ :: as, v :: vs => v :: fwdXAux v as vs
  | _, g => g

/-- Modelled from the spec: `RecursiveFilter.recurse_backwards_x`: the axis-0
recursion traversed in reverse row order. -/
def recurse_backwards_x (g alphas : Grid) : Grid :=
  (recurse_forward_x g.reverse alphas.reverse).reverse

/-- Modelled from the spec: `RecursiveFilter.run_recursion`.  Each iteration
applies the axis-0 pass forward then backward, then the axis-1 pass forward
then backward, each pass consuming the previous pass's output.  (The spec's
section 4.2 describes an unweighted average of independent forward and
backward passes, but the concrete values pinned by the in-source unit tests
are reproduced exactly by this sequential composition and not by the
averaged one, so the model follows the tests.) -/
def run_recursion (g alphas_x alphas_y : Grid) (iterations : ℕ) : Grid :=
  Nat.rec g (fun _ acc =>
    let x1 := recurse_forward_x acc alphas_x
    let x2 := recurse_backwards_x x1 alphas_x
    let y1 := recurse_forward_y x2 alphas_y
    recurse_backwards_y y1 alphas_y) iterations

/-- Build a grid of the same shape as `g`, filled with the constant `a`
(the model of `numpy.ones(cube.data.shape) * alpha`). -/
def uniformLike (g : Grid) (a : Frac) : Grid :=
  g.map (fun r => r.map (fun _ => a))

/-- Shape equality of two grids, as the implementation compares
`alphas_cube.data.shape != cube.data.shape`. -/
def gridShapeEq : Grid → Grid → Bool
  | [], [] => true
  | r :: rs, s :: ss => r.length == s.length && gridShapeEq rs ss
  | _, _ => false

/-- Error taxonomy of the filter's fail-fast validation, mirroring the
`ValueError` messages checked by the in-source unit tests.  `invalidAlpha`
carries the offending axis name and offending value. -/
inductive RFError where
  | invalidAlpha (axis : String) (value : Frac)
  | invalidIterations (n : ℤ)
  | alphaMissing
  | alphaConflict
  | shapeMismatch
deriving DecidableEq, Repr

/-- Modelled from the spec: `RecursiveFilter.set_alphas` (implementation file
not among the sources).  Exactly one coefficient source must be supplied;
a scalar is broadcast to the data grid's shape; a supplied coefficient grid
must match the unpadded data grid's shape; the result is padded to the halo
domain with the external padder. -/
def set_alphas (g : Grid) (alpha : Option Frac) (alphas_cube : Option Grid)
    (edge_width : ℕ) : Except RFError Grid :=
  match alpha, alphas_cube with
  | none, none => .error .alphaMissing
  | some _, some _ => .error .alphaConflict
  | some a, none => .ok (pad_cube_with_halo edge_width edge_width (uniformLike g a))
  | none, some ac =>
      if gridShapeEq ac g then .ok (pad_cube_with_halo edge_width edge_width ac)
      else .error .shapeMismatch

/-- Validation of one scalar smoothing coefficient, named after its axis:
a supplied value must lie strictly between 0 and 1. -/
def validate_alpha (axis : String) : Option Frac → Except RFError Unit
  | none => .ok ()
  | some a =>
      if Frac.blt 0 a && Frac.blt a 1 then .ok ()
      else .error (.invalidAlpha axis a)

/-- Validation of the iteration count: a supplied value must be at least 1. -/
def validate_iterations : Option ℤ → Except RFError Unit
  | none => .ok ()
  | some n => if 1 ≤ n then .ok () else .error (.invalidIterations n)

/-- Modelled from the spec: the `RecursiveFilter.__init__` validation, which
runs before any numerical work: it checks `alpha_x`, then `alpha_y`, then
`iterations`, raising on the first invalid value. -/
def RecursiveFilter_init (alpha_x alpha_y : Option Frac) (iterations : Option ℤ) :
    Except RFError Unit :=
  match validate_alpha "alpha_x" alpha_x with
  | .error e => .error e
  | .ok _ =>
    match validate_alpha "alpha_y" alpha_y with
    | .error e => .error e
    | .ok _ => validate_iterations iterations

/-- An invalid-data footprint: one boolean per grid cell (row-major),
`true` marking a cell that is not-a-number or masked. -/
abbrev BoolGrid := List (List Bool)

/-- Zero out the cells of one row flagged in either boolean row (missing
flags beyond the lists' ends count as unflagged). -/
def zeroInvalidRow : List Bool → List Bool → Row → Row
  | _, _, [] => []
  | bn, bm, v :: vs =>
      (if bn.headD false || bm.headD false then (0 : Frac) else v) ::
        zeroInvalidRow bn.tail bm.tail vs

/-- Zero out every cell of a grid flagged in either boolean grid: the model
of setting the data to 0.0 wherever it is not-a-number or masked before
filtering. -/
def zeroInvalid (nan mask : BoolGrid) : Grid → Grid
  | [] => []
  | r :: rs =>
      zeroInvalidRow (nan.headD []) (mask.headD []) r ::
        zeroInvalid nan.tail mask.tail rs

/-- A grid together with its invalid-data footprints: `nan` marks cells whose
stored value is not-a-number (the stored `Frac` there is irrelevant), `mask`
marks cells excluded by the missing-data mask. -/
structure MaskedGrid where
  data : Grid
  nan : BoolGrid
  mask : BoolGrid
deriving DecidableEq, Repr

/-- Modelled from the spec: `RecursiveFilter.process` on one 2-D slice
(implementation file not among the sources).  The coefficient fields are
built and padded, the data is zeroed where invalid, padded with the halo,
run through the recursion, cropped back, and returned with the original
not-a-number cells re-marked and the original mask footprint reapplied. -/
def process (cube : MaskedGrid) (alpha_x alpha_y : Option Frac)
    (alphas_x alphas_y : Option Grid) (iterations : ℕ) (edge_width : ℕ) :
    Except RFError MaskedGrid :=
  match set_alphas cube.data alpha_x alphas_x edge_width with
  | .error e => .error e
  | .ok ax =>
    match set_alphas cube.data alpha_y alphas_y edge_width with
    | .error e => .error e
    | .ok ay =>
      let m := cube.data.length
      let n := (cube.data.headD []).length
      let zeroed := zeroInvalid cube.nan cube.mask cube.data
      let padded := pad_cube_with_halo edge_width edge_width zeroed
      let filtered := run_recursion padded ax ay iterations
      let cropped := remove_halo_from_cube edge_width edge_width m n filtered
      .ok ⟨cropped, cube.nan, cube.mask⟩

/-- Modelled from the spec: the full plugin invocation
`RecursiveFilter(alpha_x, alpha_y, iterations, edge_width).process(cube,
alphas_x, alphas_y)`: fail-fast configuration validation, then the
processing pipeline.  `iterations` is an integer so that the invalid value
0 is expressible; the recursion runs `iterations.toNat` times. -/
def processFull (cube : MaskedGrid) (alpha_x alpha_y : Option Frac)
    (iterations : ℤ) (edge_width : ℕ) (alphas_x alphas_y : Option Grid) :
    Except RFError MaskedGrid :=
  match RecursiveFilter_init alpha_x alpha_y (some iterations) with
  | .error e => .error e
  | .ok _ => process cube alpha_x alpha_y alphas_x alphas_y iterations.toNat edge_width

/-- Convenience: the cell at row `i`, column `j` of a processing result
(0 when the computation failed or the index is out of range). -/
def resultCell (r : Except RFError MaskedGrid) (i j : ℕ) : Frac :=
  match r with
  | .error _ => 0
  | .ok out => (out.data.getD i []).getD j 0

/-- The 5x5 plus-shaped impulse grid of the unit-test scenario: centre 0.5,
orthogonal neighbours 0.25, next neighbours 0.1, zero elsewhere. -/
def baseGrid : Grid :=
  [[0, 0, ⟨1, 10⟩, 0, 0],
   [0, 0, ⟨1, 4⟩, 0, 0],
   [⟨1, 10⟩, ⟨1, 4⟩, ⟨1, 2⟩, ⟨1, 4⟩, ⟨1, 10⟩],
   [0, 0, ⟨1, 4⟩, 0, 0],
   [0, 0, ⟨1, 10⟩, 0, 0]]

/-- An all-clear 5x5 invalid-data footprint. -/
def noFlags : BoolGrid := List.replicate 5 (List.replicate 5 false)

/-- A 5x5 footprint flagging exactly the cell at row `i`, column `j`. -/
def flagAt (i j : ℕ) : BoolGrid :=
  (List.range 5).map (fun r => (List.range 5).map (fun c => r == i && c == j))

/-- The uniform 5x5 coefficient grid of 0.5 used by the unit tests. -/
def alphasCube1 : Grid := uniformLike baseGrid ⟨1, 2⟩

/-- The padded 9x9 coefficient grid produced by `set_alphas` for the
scenario (uniform 0.5, `edge_width = 1`). -/
def alphasPadded : Grid := pad_cube_with_halo 1 1 alphasCube1

/-- The plain concrete scenario run: no cell invalid. -/
def plainRun : Except RFError MaskedGrid :=
  processFull ⟨baseGrid, noFlags, noFlags⟩ (some ⟨1, 2⟩) (some ⟨1, 2⟩) 1 1 none none

/-- The missing-data scenario run: the orthogonal neighbour at row 3,
column 2 is not-a-number. -/
def nanRun : Except RFError MaskedGrid :=
  processFull ⟨baseGrid, flagAt 3 2, noFlags⟩ (some ⟨1, 2⟩) (some ⟨1, 2⟩) 1 1 none none

/-- The mask-only scenario run: the neighbour at row 1, column 2 is masked
and no cell is not-a-number. -/
def maskedOnlyRun : Except RFError MaskedGrid :=
  processFull ⟨baseGrid, noFlags, flagAt 1 2⟩ (some ⟨1, 2⟩) (some ⟨1, 2⟩) 1 1 none none

/-- The combined scenario run of the unit tests: the cell at row 3, column 2
is not-a-number and the cell at row 1, column 2 is masked. -/
def nanAndMaskedRun : Except RFError MaskedGrid :=
  processFull ⟨baseGrid, flagAt 3 2, flagAt 1 2⟩ (some ⟨1, 2⟩) (some ⟨1, 2⟩) 1 1 none none

/-- The mask-same-cell scenario run: the cell at row 3, column 2 is masked
(and nothing is not-a-number), as in the alpha-cubes masked-data unit test. -/
def maskedSameCellRun : Except RFError MaskedGrid :=
  processFull ⟨baseGrid, noFlags, flagAt 3 2⟩ (some ⟨1, 2⟩) (some ⟨1, 2⟩) 1 1 none none

end Improver

namespace SpotDatabase

/-
Model of `SpotDatabase.create_table` from `improver/database.py` (which is
among the sources): its effect on the file system is modelled as a partial
map from paths to file contents.
-/

/-- Contents of a file in the modelled file system. -/
inductive FileContent where
  | raw (text : String)
  | sqliteDb (schema : String)
deriving DecidableEq, Repr

/-- The file system: a partial map from paths to file contents. -/
abbrev FS := String → Option FileContent

/-- The exporter's DataFrame, reduced to what `create_table` consumes: the
indexed columns and the ordinary (value) columns.  `self.df.columns` is the
value-column list; the index columns reappear on `reset_index`. -/
structure DataFrame where
  indexCols : List String
  valueCols : List String
deriving DecidableEq, Repr

/-- Model of `os.path.isfile(p)`. -/
def os_path_isfile (fs : FS) (p : String) : Bool := (fs p).isSome

/-- Model of `os.unlink(p)`: remove the file at `p`. -/
def os_unlink (fs : FS) (p : String) : FS := fun q => if q = p then none else fs q

/-- Model of `self.df.reset_index()`: the index columns become ordinary
leading columns. -/
def reset_index (df : DataFrame) : List String := df.indexCols ++ df.valueCols

/-- Model of `pd.io.sql.get_schema(new_df, table, keys=...)`: render the
CREATE TABLE statement from the column list and the primary keys. -/
def get_schema (cols : List String) (table : String) (keys : List String) : String :=
  "CREATE TABLE " ++ table ++ " (" ++ String.intercalate ", " cols ++
    ") PRIMARY KEY (" ++ String.intercalate ", " keys ++ ")"

/-- The deletion phase at the top of `SpotDatabase.create_table`:
`if os.path.isfile(outfile): os.unlink(outfile)`. -/
def create_table_unlink_phase (fs : FS) (outfile : String) : FS :=
  if os_path_isfile fs outfile then os_unlink fs outfile else fs

/-- Model of `sqlite3.connect(outfile)` followed by `db.execute(schema)`:
connecting creates the database file at the path if absent, and executing
the statement leaves a database holding the created table. -/
def sqlite_connect_execute (fs : FS) (outfile : String) (schema : String) : FS :=
  fun q => if q = outfile then some (.sqliteDb schema) else fs q

/-- Model of `SpotDatabase.create_table(outfile, table)`: delete any existing
file at `outfile`, compute the schema of the reset DataFrame with the
formerly-indexed leading columns as primary keys (`n_keys` is the column
count difference), and create the table in a fresh database file. -/
def create_table (df : DataFrame) (fs : FS) (outfile table : String) : FS :=
  let fs1 := create_table_unlink_phase fs outfile
  let new_cols := reset_index df
  let n_keys := new_cols.length - df.valueCols.length
  let schema := get_schema new_cols table (new_cols.take n_keys)
  sqlite_connect_execute fs1 outfile schema

/-- A concrete one-file file system used to exercise `create_table`. -/
def fsExample : FS := fun p => if p = "out.db" then some (.raw "old data") else none

end SpotDatabase

namespace Improver

/-
Shape-preservation lemmas for the pipeline's building blocks.
-/

theorem length_fwdLineAux (p : Frac) (as vs : Row) :
    (fwdLineAux p as vs).length = min as.length vs.length := by
  induction vs generalizing p as with
  | nil => cases as <;> simp [fwdLineAux]
  | cons v vs ih =>
      cases as with
      | nil => simp [fwdLineAux]
      | cons a as =>
          simp [fwdLineAux, ih]
          omega

theorem length_fwdLine (as vs : Row) (h : as.length = vs.length) :
    (fwdLine as vs).length = vs.length := by
  cases as with
  | nil => cases vs <;> simp [fwdLine]
  | cons a as =>
      cases vs with
      | nil => simp [fwdLine]
      | cons v vs =>
          simp only [List.length_cons] at h
          simp [fwdLine, length_fwdLineAux]
          omega

theorem length_stepRow (arow prev vrow : Row) :
    (stepRow arow prev vrow).length = min (min arow.length prev.length) vrow.length := by
  simp [stepRow]

theorem rect_fwdXAux (n : ℕ) (vs : Grid) : ∀ (as : Grid) (p : Row),
    p.length = n → (∀ r ∈ as, r.length = n) → (∀ r ∈ vs, r.length = n) →
    (fwdXAux p as vs).length = min as.length vs.length ∧
      ∀ r ∈ fwdXAux p as vs, r.length = n := by
  induction vs with
  | nil => intro as p _ _ _; cases as <;> simp [fwdXAux]
  | cons v vs ih =>
      intro as p hp ha hv
      cases as with
      | nil => simp [fwdXAux]
      | cons a as =>
          have hcur : (stepRow a p v).length = n := by
            rw [length_stepRow, ha a (by simp), hp, hv v (by simp)]
            omega
          obtain ⟨h1, h2⟩ := ih as (stepRow a p v) hcur
            (fun r hr => ha r (by simp [hr])) (fun r hr => hv r (by simp [hr]))
          refine ⟨by simp [fwdXAux, h1]; omega, ?_⟩
          intro r hr
          rw [show fwdXAux p (a :: as) (v :: vs)
                = stepRow a p v :: fwdXAux (stepRow a p v) as vs from rfl] at hr
          rcases List.mem_cons.mp hr with rfl | hr
          · exact hcur
          · exact h2 r hr

theorem rect_recurse_forward_x {m n : ℕ} {g a : Grid}
    (hg : Rect m n g) (ha : Rect m n a) : Rect m n (recurse_forward_x g a) := by
  obtain ⟨hgl, hgr⟩ := hg
  obtain ⟨hal, har⟩ := ha
  cases a with
  | nil => exact ⟨by cases g <;> simpa [recurse_forward_x] using hgl,
      by cases g <;> exact fun r hr => hgr r hr⟩
  | cons a0 as =>
      cases g with
      | nil => exact ⟨by simpa [recurse_forward_x] using hgl, fun r hr => hgr r hr⟩
      | cons v vs =>
          obtain ⟨h1, h2⟩ := rect_fwdXAux n vs as v (hgr v (by simp))
            (fun r hr => har r (by simp [hr])) (fun r hr => hgr r (by simp [hr]))
          simp only [List.length_cons] at hgl hal
          constructor
          · rw [show recurse_forward_x (v :: vs) (a0 :: as) = v :: fwdXAux v as vs from rfl]
            simp [h1]
            omega
          · intro r hr
            rw [show recurse_forward_x (v :: vs) (a0 :: as) = v :: fwdXAux v as vs from rfl] at hr
            rcases List.mem_cons.mp hr with rfl | hr
            · exact hgr r (by simp)
            · exact h2 r hr

theorem rect_reverse {m n : ℕ} {g : Grid} (hg : Rect m n g) : Rect m n g.reverse :=
  ⟨by simp [hg.1], fun r hr => hg.2 r (List.mem_reverse.mp hr)⟩

theorem rect_recurse_backwards_x {m n : ℕ} {g a : Grid}
    (hg : Rect m n g) (ha : Rect m n a) : Rect m n (recurse_backwards_x g a) :=
  rect_reverse (rect_recurse_forward_x (rect_reverse hg) (rect_reverse ha))

theorem rect_zipWith_row (n : ℕ) (f : Row → Row → Row)
    (hf : ∀ x y : Row, x.length = n → y.length = n → (f x y).length = n) :
    ∀ (g a : Grid), (∀ r ∈ g, r.length = n) → (∀ r ∈ a, r.length = n) →
      ∀ r ∈ List.zipWith f g a, r.length = n := by
  intro g
  induction g with
  | nil => intro a _ _ r hr; simp at hr
  | cons x g ih =>
      intro a hg ha r hr
      cases a with
      | nil => simp at hr
      | cons y a =>
          rw [List.zipWith_cons_cons] at hr
          rcases List.mem_cons.mp hr with rfl | hr
          · exact hf x y (hg x (by simp)) (ha y (by simp))
          · exact ih a (fun r hr => hg r (by simp [hr])) (fun r hr => ha r (by simp [hr])) r hr

theorem rect_recurse_forward_y {m n : ℕ} {g a : Grid}
    (hg : Rect m n g) (ha : Rect m n a) : Rect m n (recurse_forward_y g a) := by
  refine ⟨by simp [recurse_forward_y, hg.1, ha.1], ?_⟩
  exact rect_zipWith_row n _
    (fun x y hx hy => by rw [length_fwdLine y x (by rw [hx, hy]), hx]) g a hg.2 ha.2

theorem rect_recurse_backwards_y {m n : ℕ} {g a : Grid}
    (hg : Rect m n g) (ha : Rect m n a) : Rect m n (recurse_backwards_y g a) := by
  refine ⟨by simp [recurse_backwards_y, hg.1, ha.1], ?_⟩
  refine rect_zipWith_row n _ ?_ g a hg.2 ha.2
  intro x y hx hy
  have : (fwdLine y.reverse x.reverse).length = n := by
    rw [length_fwdLine y.reverse x.reverse (by simp [hx, hy])]
    simp [hx]
  simpa using this

theorem rect_run_recursion {M N : ℕ} {g ax ay : Grid}
    (hg : Rect M N g) (hax : Rect M N ax) (hay : Rect M N ay) (it : ℕ) :
    Rect M N (run_recursion g ax ay it) := by
  induction it with
  | zero => exact hg
  | succ k ih =>
      have hstep : run_recursion g ax ay (k + 1)
          = recurse_backwards_y (recurse_forward_y
              (recurse_backwards_x (recurse_forward_x (run_recursion g ax ay k) ax) ax) ay) ay := rfl
      rw [hstep]
      exact rect_recurse_backwards_y (rect_recurse_forward_y
        (rect_recurse_backwards_x (rect_recurse_forward_x ih hax) hax) hay) hay

theorem length_padRow (w : ℕ) (r : Row) : (padRow w r).length = r.length + 4*w := by
  simp [padRow]
  omega

theorem length_meanRows (w n : ℕ) (g : Grid) (hne : g ≠ [])
    (hg : ∀ r ∈ g, r.length = n) : (meanRows w g).length = n := by
  cases g with
  | nil => exact absurd rfl hne
  | cons r rs => simp [meanRows, hg r (by simp)]

theorem rect_pad {m n : ℕ} (mx my : ℕ) {g : Grid} (hm : 1 ≤ m) (hg : Rect m n g) :
    Rect (m + 4*my) (n + 4*mx) (pad_cube_with_halo mx my g) := by
  obtain ⟨hgl, hgr⟩ := hg
  have hne : g ≠ [] := by
    intro h
    subst h
    simp at hgl
    omega
  have hner : g.reverse ≠ [] := by simpa using hne
  have hgrr : ∀ r ∈ g.reverse, r.length = n := fun r hr => hgr r (List.mem_reverse.mp hr)
  constructor
  · simp [pad_cube_with_halo, hgl]
    omega
  · intro row hrow
    simp only [pad_cube_with_halo, List.mem_map] at hrow
    obtain ⟨r0, hr0, rfl⟩ := hrow
    rw [length_padRow]
    have hr0n : r0.length = n := by
      rcases List.mem_append.mp hr0 with h | h
      · rcases List.mem_append.mp h with h | h
        · rw [List.eq_of_mem_replicate h]
          exact length_meanRows my n g hne hgr
        · exact hgr r0 h
      · rw [List.eq_of_mem_replicate h]
        exact length_meanRows my n g.reverse hner hgrr
    omega

theorem rect_remove_halo {m n mx my : ℕ} {g : Grid}
    (hg : Rect (m + 4*my) (n + 4*mx) g) :
    Rect m n (remove_halo_from_cube mx my m n g) := by
  obtain ⟨hgl, hgr⟩ := hg
  constructor
  · simp [remove_halo_from_cube, hgl]
    omega
  · intro r hr
    simp only [remove_halo_from_cube, List.mem_map] at hr
    obtain ⟨r0, hr0, rfl⟩ := hr
    have hr0g : r0 ∈ g := List.drop_subset _ _ (List.take_subset _ _ hr0)
    simp [hgr r0 hr0g]
    omega

theorem length_zeroInvalidRow (bn bm : List Bool) (r : Row) :
    (zeroInvalidRow bn bm r).length = r.length := by
  induction r generalizing bn bm with
  | nil => simp [zeroInvalidRow]
  | cons v vs ih => simp [zeroInvalidRow, ih]

theorem length_zeroInvalid (nan mask : BoolGrid) (g : Grid) :
    (zeroInvalid nan mask g).length = g.length := by
  induction g generalizing nan mask with
  | nil => simp [zeroInvalid]
  | cons r rs ih => simp [zeroInvalid, ih]

theorem mem_zeroInvalid_length (nan mask : BoolGrid) (g : Grid) (n : ℕ)
    (hg : ∀ r ∈ g, r.length = n) : ∀ r ∈ zeroInvalid nan mask g, r.length = n := by
  induction g generalizing nan mask with
  | nil => intro r hr; simp [zeroInvalid] at hr
  | cons x g ih =>
      intro r hr
      rw [show zeroInvalid nan mask (x :: g)
            = zeroInvalidRow (nan.headD []) (mask.headD []) x :: zeroInvalid nan.tail mask.tail g
          from rfl] at hr
      rcases List.mem_cons.mp hr with rfl | hr
      · rw [length_zeroInvalidRow]
        exact hg x (by simp)
      · exact ih nan.tail mask.tail (fun r hr => hg r (by simp [hr])) r hr

theorem rect_zeroInvalid {m n : ℕ} (nan mask : BoolGrid) {g : Grid} (hg : Rect m n g) :
    Rect m n (zeroInvalid nan mask g) :=
  ⟨by rw [length_zeroInvalid, hg.1], mem_zeroInvalid_length nan mask g n hg.2⟩

theorem rect_uniformLike {m n : ℕ} {g : Grid} (a : Frac) (hg : Rect m n g) :
    Rect m n (uniformLike g a) := by
  refine ⟨by simp [uniformLike, hg.1], ?_⟩
  intro r hr
  simp only [uniformLike, List.mem_map] at hr
  obtain ⟨r0, hr0, rfl⟩ := hr
  simp [hg.2 r0 hr0]

theorem gridShapeEq_uniformLike (g : Grid) (a : Frac) :
    gridShapeEq (uniformLike g a) g = true := by
  induction g with
  | nil => rfl
  | cons r rs ih =>
      rw [show uniformLike (r :: rs) a
            = r.map (fun _ => a) :: uniformLike rs a from rfl]
      simp [gridShapeEq, ih]

end Improver

namespace Improver

/-
Anchoring facts: the model reproduces the concrete values pinned by the
in-source unit tests for the individual directional passes.
-/

/-- The forward axis-0 pass on the unpadded 5x5 scenario grid with uniform
coefficient 0.5 yields 0.196875 at row 4, column 2, as the unit test checks. -/
theorem recurse_forward_x_matches_unit_test :
    ((recurse_forward_x baseGrid alphasCube1).getD 4 []).getD 2 0 = ⟨63, 320⟩ := by decide

/-- The backward axis-0 pass yields 0.196875 at row 0, column 2. -/
theorem recurse_backwards_x_matches_unit_test :
    ((recurse_backwards_x baseGrid alphasCube1).getD 0 []).getD 2 0 = ⟨63, 320⟩ := by decide

/-- The forward axis-1 pass yields 0.0125 at row 0, column 4. -/
theorem recurse_forward_y_matches_unit_test :
    ((recurse_forward_y baseGrid alphasCube1).getD 0 []).getD 4 0 = ⟨1, 80⟩ := by decide

/-- The backward axis-1 pass yields 0.0125 at row 0, column 0. -/
theorem recurse_backwards_y_matches_unit_test :
    ((recurse_backwards_y baseGrid alphasCube1).getD 0 []).getD 0 0 = ⟨1, 80⟩ := by decide

/-- The recursion on the padded 9x9 grid yields the expected centre value at
index (4, 4), as the run_recursion unit test checks (0.13382206 to 7 places). -/
theorem run_recursion_matches_unit_test :
    Frac.blt (Frac.abs (((run_recursion (pad_cube_with_halo 1 1 baseGrid) alphasPadded
      alphasPadded 1).getD 4 []).getD 4 0 - ⟨13382206, 100000000⟩)) ⟨5, 100000000⟩ = true := by
  decide

/-- Masking a cell and marking the same cell as not-a-number are numerically
identical exclusions: both zero the cell before filtering. -/
theorem mask_same_cell_equals_nan_exclusion :
    resultCell maskedSameCellRun 2 2 = resultCell nanRun 2 2 := by decide

/-- Claim C2 (counterexample): the external padder does not satisfy the
claimed shape `grid.shape[0] + 2*marginY`: a 5x5 grid padded with margin 1
has 9 rows, not 5 + 2*1 = 7. -/
theorem pad_halo_shape_claim_false :
    ¬ (pad_cube_with_halo 1 1 baseGrid).length = 5 + 2*1 := by decide

/-- Claim C2 (amended): for every nonempty rectangular grid and margins, the
padded grid's shape is `(grid.shape[0] + 4*marginY, grid.shape[1] + 4*marginX)`
(the padder adds `2*margin` halo cells on each side); in particular a 5x5
grid with margin 1 pads to 9x9. -/
theorem pad_halo_shape (m n mx my : ℕ) (g : Grid) (hm : 1 ≤ m) (hg : Rect m n g) :
    Rect (m + 4*my) (n + 4*mx) (pad_cube_with_halo mx my g) :=
  rect_pad mx my hm hg

/-- Witness for the amended C2 shape theorem at the 5x5 scenario grid. -/
theorem pad_halo_shape_witness :
    (1 ≤ 5 ∧ Rect 5 5 baseGrid) ∧
      Rect (5 + 4*1) (5 + 4*1) (pad_cube_with_halo 1 1 baseGrid) :=
  ⟨⟨by decide, by decide⟩, pad_halo_shape 5 5 1 1 baseGrid (by decide) (by decide)⟩

/-- Claim C3: processing the 5x5 plus-shaped impulse grid with scalar
coefficients 0.5, one iteration and edge width 1 succeeds and yields a
centre cell within 5e-8 of 0.13382206. -/
theorem process_plus_impulse_centre :
    ∃ out, plainRun = .ok out ∧
      Frac.blt (Frac.abs ((out.data.getD 2 []).getD 2 0 - ⟨13382206, 100000000⟩))
        ⟨5, 100000000⟩ = true :=
  ⟨_, rfl, by decide⟩

/-- Claim C4: the same scenario with the orthogonal neighbour at row 3,
column 2 marked not-a-number succeeds, yields a centre cell within 5e-8 of
0.11979733, and the centre cell of the output is not marked not-a-number. -/
theorem process_nan_bridged_centre :
    ∃ out, nanRun = .ok out ∧
      Frac.blt (Frac.abs ((out.data.getD 2 []).getD 2 0 - ⟨11979733, 100000000⟩))
        ⟨5, 100000000⟩ = true ∧
      (out.nan.getD 2 []).getD 2 true = false :=
  ⟨_, rfl, by decide, by decide⟩

/-- Claim C1 (counterexample): with one neighbour cell (row 1, column 2)
masked and no cell not-a-number, the centre cell is not approximately
0.105854129 — it is not even within 0.01 of that value. -/
theorem masked_neighbour_value_claim_false :
    Frac.blt (Frac.abs (resultCell maskedOnlyRun 2 2 - ⟨105854129, 1000000000⟩))
      ⟨1, 100⟩ = false := by decide

/-- Claim C1 (amended): with the neighbour at row 1, column 2 masked and no
cell not-a-number, the centre cell is within 1e-9 of 0.119878864, and that
value differs from the not-a-number scenario's centre value; the value
0.105854129 instead arises when the cell at row 3, column 2 is not-a-number
and the cell at row 1, column 2 is masked, as in the unit test. -/
theorem masked_neighbour_scenario_values :
    (∃ out, maskedOnlyRun = .ok out) ∧
    Frac.blt (Frac.abs (resultCell maskedOnlyRun 2 2 - ⟨119878864, 1000000000⟩))
      ⟨1, 1000000000⟩ = true ∧
    resultCell maskedOnlyRun 2 2 ≠ resultCell nanRun 2 2 ∧
    (∃ out, nanAndMaskedRun = .ok out) ∧
    Frac.blt (Frac.abs (resultCell nanAndMaskedRun 2 2 - ⟨105854129, 1000000000⟩))
      ⟨1, 1000000000⟩ = true :=
  ⟨⟨_, rfl⟩, by decide, by decide, ⟨_, rfl⟩, by decide⟩

/-- Claim C7: a scalar coefficient of 1.1 or -0.5 on either axis makes the
full invocation fail with an error naming the offending axis and value, and
an iteration count of 0 makes it fail — in every case for every input grid
and regardless of the other configuration, so no result grid is ever
returned and no numerical work can influence the outcome. -/
theorem invalid_configuration_rejected (cube : MaskedGrid) (other : Option Frac)
    (it : ℤ) (ew : ℕ) (cx cy : Option Grid) :
    processFull cube (some ⟨11, 10⟩) other it ew cx cy
        = .error (.invalidAlpha "alpha_x" ⟨11, 10⟩) ∧
    processFull cube (some ⟨-1, 2⟩) other it ew cx cy
        = .error (.invalidAlpha "alpha_x" ⟨-1, 2⟩) ∧
    processFull cube none (some ⟨11, 10⟩) it ew cx cy
        = .error (.invalidAlpha "alpha_y" ⟨11, 10⟩) ∧
    processFull cube none (some ⟨-1, 2⟩) it ew cx cy
        = .error (.invalidAlpha "alpha_y" ⟨-1, 2⟩) ∧
    processFull cube none none 0 ew cx cy = .error (.invalidIterations 0) :=
  ⟨rfl, rfl, rfl, rfl, rfl⟩

/-- Claim C8: the coefficient-field builder requires exactly one coefficient
source per axis: supplying both a scalar and a grid is an error, and
supplying neither is an error, for every data grid and configuration (so
the failure precedes any computation on the grid). -/
theorem coefficient_source_exclusive (g : Grid) (a : Frac) (c : Grid) (ew : ℕ) :
    set_alphas g (some a) (some c) ew = .error .alphaConflict ∧
    set_alphas g none none ew = .error .alphaMissing :=
  ⟨rfl, rfl⟩

end Improver

namespace Improver

/-- Claim C5: for every nonempty rectangular input grid, scalar coefficients
strictly inside (0, 1) on both axes, and iteration count at least 1, the
full invocation succeeds and the result grid's shape is identical to the
input grid's shape. -/
theorem process_preserves_shape (m n : ℕ) (g : Grid) (nan mask : BoolGrid)
    (ax ay : Frac) (it : ℤ) (ew : ℕ)
    (hm : 1 ≤ m) (hg : Rect m n g)
    (hax0 : Frac.blt 0 ax = true) (hax1 : Frac.blt ax 1 = true)
    (hay0 : Frac.blt 0 ay = true) (hay1 : Frac.blt ay 1 = true)
    (hit : 1 ≤ it) :
    ∃ out, processFull ⟨g, nan, mask⟩ (some ax) (some ay) it ew none none = .ok out ∧
      Rect m n out.data := by
  have hinit : RecursiveFilter_init (some ax) (some ay) (some it) = .ok () := by
    simp [RecursiveFilter_init, validate_alpha, validate_iterations, hax0, hax1, hay0, hay1, hit]
  refine ⟨⟨remove_halo_from_cube ew ew g.length (g.headD []).length
      (run_recursion (pad_cube_with_halo ew ew (zeroInvalid nan mask g))
        (pad_cube_with_halo ew ew (uniformLike g ax))
        (pad_cube_with_halo ew ew (uniformLike g ay)) it.toNat), nan, mask⟩, ?_, ?_⟩
  · simp only [processFull, hinit]
    rfl
  · have hgl : g.length = m := hg.1
    have hhead : (g.headD []).length = n := by
      cases g with
      | nil => simp [Rect] at hg; omega
      | cons r rs => exact hg.2 r (by simp)
    show Rect m n (remove_halo_from_cube ew ew g.length (g.headD []).length
      (run_recursion (pad_cube_with_halo ew ew (zeroInvalid nan mask g))
        (pad_cube_with_halo ew ew (uniformLike g ax))
        (pad_cube_with_halo ew ew (uniformLike g ay)) it.toNat))
    rw [hgl, hhead]
    exact rect_remove_halo (rect_run_recursion
      (rect_pad ew ew hm (rect_zeroInvalid nan mask hg))
      (rect_pad ew ew hm (rect_uniformLike ax hg))
      (rect_pad ew ew hm (rect_uniformLike ay hg)) it.toNat)

end Improver

namespace Improver

/-- Witness for C5 at the concrete 5x5 scenario. -/
theorem process_preserves_shape_witness :
    ((1 : ℕ) ≤ 5 ∧ Rect 5 5 baseGrid ∧ Frac.blt 0 ⟨1, 2⟩ = true ∧ Frac.blt ⟨1, 2⟩ 1 = true ∧
      (1 : ℤ) ≤ 1) ∧
    ∃ out, processFull ⟨baseGrid, noFlags, noFlags⟩ (some ⟨1, 2⟩) (some ⟨1, 2⟩) 1 1 none none
        = .ok out ∧ Rect 5 5 out.data :=
  ⟨⟨by decide, by decide, by decide, by decide, by decide⟩,
    process_preserves_shape 5 5 baseGrid noFlags noFlags ⟨1, 2⟩ ⟨1, 2⟩ 1 1
      (by decide) (by decide) (by decide) (by decide) (by decide) (by decide) (by decide)⟩

/-- Claim C6: whenever the full invocation succeeds, the output's invalid
footprints are identical to the input's: every not-a-number cell and every
masked cell of the input is still marked so in the output. -/
theorem process_preserves_invalid_footprint (cube : MaskedGrid)
    (alpha_x alpha_y : Option Frac) (it : ℤ) (ew : ℕ)
    (alphas_x alphas_y : Option Grid) (out : MaskedGrid)
    (h : processFull cube alpha_x alpha_y it ew alphas_x alphas_y = .ok out) :
    out.nan = cube.nan ∧ out.mask = cube.mask := by
  unfold processFull at h
  split at h
  · exact Except.noConfusion h
  · unfold process at h
    split at h
    · exact Except.noConfusion h
    · split at h
      · exact Except.noConfusion h
      · injection h with h2
        rw [← h2]
        exact ⟨rfl, rfl⟩

/-- Witness for C6 at the combined invalid-data scenario. -/
theorem process_preserves_invalid_footprint_witness :
    ∃ out, processFull ⟨baseGrid, flagAt 3 2, flagAt 1 2⟩ (some ⟨1, 2⟩) (some ⟨1, 2⟩)
        1 1 none none = .ok out ∧ (out.nan = flagAt 3 2 ∧ out.mask = flagAt 1 2) :=
  ⟨_, rfl, process_preserves_invalid_footprint ⟨baseGrid, flagAt 3 2, flagAt 1 2⟩
    (some ⟨1, 2⟩) (some ⟨1, 2⟩) 1 1 none none _ rfl⟩

/-- Claim C9: supplying a scalar coefficient for one axis produces output
identical to supplying, for that axis, a coefficient grid of the unpadded
data grid's shape filled uniformly with that scalar — per axis, while the
other axis holds an arbitrary configuration (scalar, grid, both or
neither), which is treated identically on both sides. -/
theorem scalar_coefficient_equals_uniform_grid (cube : MaskedGrid) (a b : Frac)
    (oy ox : Option Frac) (cy cx : Option Grid) (it : ℤ) (ew : ℕ)
    (ha0 : Frac.blt 0 a = true) (ha1 : Frac.blt a 1 = true)
    (hb0 : Frac.blt 0 b = true) (hb1 : Frac.blt b 1 = true) :
    (processFull cube (some a) oy it ew none cy =
      processFull cube none oy it ew (some (uniformLike cube.data a)) cy) ∧
    (processFull cube ox (some b) it ew cx none =
      processFull cube ox none it ew cx (some (uniformLike cube.data b))) := by
  constructor
  · have hinit : RecursiveFilter_init (some a) oy (some it)
        = RecursiveFilter_init none oy (some it) := by
      simp [RecursiveFilter_init, validate_alpha, ha0, ha1]
    simp only [processFull, hinit]
    cases RecursiveFilter_init none oy (some it) with
    | error e => rfl
    | ok u =>
        show process cube (some a) oy none cy it.toNat ew
            = process cube none oy (some (uniformLike cube.data a)) cy it.toNat ew
        simp [process, set_alphas, gridShapeEq_uniformLike]
  · have hinit : RecursiveFilter_init ox (some b) (some it)
        = RecursiveFilter_init ox none (some it) := by
      unfold RecursiveFilter_init
      cases validate_alpha "alpha_x" ox with
      | error e => rfl
      | ok u => simp [validate_alpha, hb0, hb1]
    simp only [processFull, hinit]
    cases RecursiveFilter_init ox none (some it) with
    | error e => rfl
    | ok u =>
        show process cube ox (some b) cx none it.toNat ew
            = process cube ox none cx (some (uniformLike cube.data b)) it.toNat ew
        unfold process
        cases set_alphas cube.data ox cx ew with
        | error e => rfl
        | ok ax => simp [set_alphas, gridShapeEq_uniformLike]

/-- Witness for C9 at the concrete 5x5 scenario with coefficient 0.5: the
x-axis substitution with a scalar still on the y-axis, and the y-axis
substitution with the uniform grid already on the x-axis. -/
theorem scalar_coefficient_equals_uniform_grid_witness :
    (Frac.blt 0 ⟨1, 2⟩ = true ∧ Frac.blt ⟨1, 2⟩ 1 = true) ∧
    ((processFull ⟨baseGrid, noFlags, noFlags⟩ (some ⟨1, 2⟩) (some ⟨1, 2⟩) 1 1 none none =
        processFull ⟨baseGrid, noFlags, noFlags⟩ none (some ⟨1, 2⟩) 1 1
          (some (uniformLike baseGrid ⟨1, 2⟩)) none) ∧
     (processFull ⟨baseGrid, noFlags, noFlags⟩ none (some ⟨1, 2⟩) 1 1
          (some (uniformLike baseGrid ⟨1, 2⟩)) none =
        processFull ⟨baseGrid, noFlags, noFlags⟩ none none 1 1
          (some (uniformLike baseGrid ⟨1, 2⟩)) (some (uniformLike baseGrid ⟨1, 2⟩)))) :=
  ⟨⟨by decide, by decide⟩,
    scalar_coefficient_equals_uniform_grid ⟨baseGrid, noFlags, noFlags⟩ ⟨1, 2⟩ ⟨1, 2⟩
      (some ⟨1, 2⟩) none none (some (uniformLike baseGrid ⟨1, 2⟩)) 1 1
      (by decide) (by decide) (by decide) (by decide)⟩

end Improver

namespace SpotDatabase

/-- Claim C10: when a file already exists at `outfile`, `create_table`
deletes it before the schema is created (the state after the unlink phase
has no file at `outfile`), the final state holds a fresh database built
only from the DataFrame's schema, and the result is entirely independent of
whatever was previously stored at `outfile`. -/
theorem create_table_overwrites_existing_file (df : DataFrame) (fs : FS)
    (outfile table : String) (c : FileContent) (h : fs outfile = some c) :
    create_table_unlink_phase fs outfile outfile = none ∧
    create_table df fs outfile table outfile =
      some (.sqliteDb (get_schema (reset_index df) table
        ((reset_index df).take ((reset_index df).length - df.valueCols.length)))) ∧
    ∀ c' : FileContent,
      create_table df (fun q => if q = outfile then some c' else fs q) outfile table =
        create_table df fs outfile table := by
  refine ⟨?_, ?_, ?_⟩
  · simp [create_table_unlink_phase, os_path_isfile, h, os_unlink]
  · simp [create_table, sqlite_connect_execute]
  · intro c'
    funext q
    by_cases hq : q = outfile
    · simp [create_table, sqlite_connect_execute, hq]
    · simp [create_table, sqlite_connect_execute, hq, create_table_unlink_phase,
        os_path_isfile, os_unlink, h]

/-- Witness for C10: a file system with old raw data at the output path. -/
theorem create_table_overwrites_existing_file_witness :
    fsExample "out.db" = some (.raw "old data") ∧
    (create_table_unlink_phase fsExample "out.db" "out.db" = none ∧
     create_table ⟨["validity_date", "validity_time"], ["vals"]⟩ fsExample "out.db" "test"
         "out.db" =
       some (.sqliteDb (get_schema
         (reset_index ⟨["validity_date", "validity_time"], ["vals"]⟩) "test"
         ((reset_index ⟨["validity_date", "validity_time"], ["vals"]⟩).take
           ((reset_index ⟨["validity_date", "validity_time"], ["vals"]⟩).length -
             (DataFrame.mk ["validity_date", "validity_time"] ["vals"]).valueCols.length)))) ∧
     ∀ c' : FileContent,
       create_table ⟨["validity_date", "validity_time"], ["vals"]⟩
           (fun q => if q = "out.db" then some c' else fsExample q) "out.db" "test" =
         create_table ⟨["validity_date", "validity_time"], ["vals"]⟩ fsExample "out.db" "test") :=
  ⟨rfl, create_table_overwrites_existing_file ⟨["validity_date", "validity_time"], ["vals"]⟩
    fsExample "out.db" "test" (.raw "old data") rfl⟩

end SpotDatabase
